import Mathlib

/-!
Verification development for the appointment-processing pipeline in
`src/vm/test.py` (helpers in `src/vm/constants.py`).

The pipeline operates on pandas DataFrames.  We embed a DataFrame of
patients as a `List Row` (pandas preserves row order; the index is unique
at every point where the code relies on alignment, see the comments at the
individual stages).  Timestamps are embedded as `Int` nanoseconds since
the epoch, mirroring numpy's `datetime64[ns]`.  Logging side effects are
embedded as an explicit list of `LogEntry` values returned next to the
rows, since several claims are about what gets logged.

Third-party behaviour that the code leans on is embedded from the
libraries' documented semantics:
  * the numpy lossy cast `timedelta64[ns] -> timedelta64[Y]` divides by the
    average Gregorian year (365.2425 days = 31556952 s) and truncates
    toward zero; pandas' `astype("<m8[Y]")` applies exactly this cast and
    returns the values as floats (`astype_td64_unit_conversion`).
  * `re.findall` returns the non-overlapping matches from left to right,
    each obtained greedily with backtracking.
  * `dateutil.parser.parse(tok, dayfirst=True)` on the token shapes that
    `SCADENZA_REGEX` can produce; the lexing and the `_ymd.resolve_ymd`
    resolution are reproduced faithfully (including the corner cases where
    a `.`-separated token lexes as one decimal number).
Python's `\w` is modelled on the ASCII range (letters, digits, underscore);
all inputs considered in the theorems are ASCII.
-/

/-- Model of Python's `\w` character class, restricted to ASCII. -/
def isWordChar (c : Char) : Bool :=
  c.isAlpha || c.isDigit || c = '_'

/-- First two characters of `PNR_REGEX = \b[XB][XB]\w{6}\b`, with
`re.IGNORECASE` (the flag is passed positionally to `Series.str.findall`). -/
def isXB (c : Char) : Bool :=
  c = 'X' || c = 'B' || c = 'x' || c = 'b'

/-- A word boundary `\b` sits after a word character exactly when the next
character is absent or not a word character. -/
def boundaryAfter : List Char → Bool
  | [] => true
  | c :: _ => !isWordChar c

/-- Shape of one PNR match: 8 characters, `[XB][XB]` (case-insensitive)
followed by six word characters. -/
def isPnrShape (l : List Char) : Bool :=
  match l with
  | [c0, c1, c2, c3, c4, c5, c6, c7] =>
      isXB c0 && isXB c1 &&
      (isWordChar c2 && isWordChar c3 && isWordChar c4 &&
       isWordChar c5 && isWordChar c6 && isWordChar c7)
  | _ => false

/-- Left-to-right scan of `re.findall(PNR_REGEX, s, re.IGNORECASE)`.
`prev` records whether the character before the current position is a word
character: since the first character of any match is a word character, the
leading `\b` holds exactly when `prev = false`.  After a match the scan
resumes at the match end (non-overlapping matches); the character before
the new position is then the final word character of the match. -/
def pnrScan : Bool → List Char → List (List Char)
  | _, [] => []
  | prev, c0 :: c1 :: c2 :: c3 :: c4 :: c5 :: c6 :: c7 :: rest =>
    if !prev && isPnrShape [c0, c1, c2, c3, c4, c5, c6, c7] && boundaryAfter rest then
      [c0, c1, c2, c3, c4, c5, c6, c7] :: pnrScan true rest
    else
      pnrScan (isWordChar c0) (c1 :: c2 :: c3 :: c4 :: c5 :: c6 :: c7 :: rest)
  | _, c :: cs => pnrScan (isWordChar c) cs

/-- Model of `re.findall(PNR_REGEX, s, re.IGNORECASE)` on a whole string
(`Series.str.findall` applies it elementwise). -/
def pnrFindall (s : String) : List String :=
  (pnrScan false s.data).map (fun l => String.mk l)

/-- Separator class `[-./]` of `SCADENZA_REGEX`. -/
def isSepChar (c : Char) : Bool :=
  c = '.' || c = '/' || c = '-'

/-- Split exactly `n` leading digits off a character list. -/
def splitDigits (n : Nat) (l : List Char) : Option (List Char × List Char) :=
  let pre := l.take n
  if pre.length = n && pre.all Char.isDigit then some (pre, l.drop n) else none

/-- Attempt the optional year group of `SCADENZA_REGEX` with a fixed digit
count `k`, requiring the trailing word boundary. -/
def scadTryYear (k : Nat) (r : List Char) : Option (List Char) :=
  match splitDigits k r with
  | some (ty, r5) => if boundaryAfter r5 then some ty else none
  | none => none

/-- Greedy handling of `(?:[-./]\d{2,4})?\b` after the day/month part
`pre`: the group is tried first (year lengths 4, 3, 2), then omitted.
When the group is omitted the boundary must hold at `r3`. -/
def scadOptYear (pre : List Char) (r3 : List Char) : Option (List Char) :=
  match r3 with
  | s2 :: r4 =>
    if isSepChar s2 then
      match scadTryYear 4 r4 <|> scadTryYear 3 r4 <|> scadTryYear 2 r4 with
      | some ty => some (pre ++ s2 :: ty)
      | none => if boundaryAfter r3 then some pre else none
    else if boundaryAfter r3 then some pre else none
  | [] => some pre

/-- Match `\d{d1n}[-./]\d{d2n}(?:[-./]\d{2,4})?\b` at the head of `l`. -/
def scadAtWith (d1n d2n : Nat) (l : List Char) : Option (List Char) :=
  match splitDigits d1n l with
  | none => none
  | some (t1, r1) =>
    match r1 with
    | s1 :: r2 =>
      if isSepChar s1 then
        match splitDigits d2n r2 with
        | none => none
        | some (t2, r3) => scadOptYear (t1 ++ s1 :: t2) r3
      else none
    | [] => none

/-- Match `SCADENZA_REGEX` (minus the leading boundary) at the head of `l`,
with the backtracking preference order of the greedy `\d{1,2}` pieces. -/
def scadAt (l : List Char) : Option (List Char) :=
  scadAtWith 2 2 l <|> scadAtWith 2 1 l <|> scadAtWith 1 2 l <|> scadAtWith 1 1 l

/-- Leftmost match of `SCADENZA_REGEX`; as in `pnrScan`, `prev` tracks the
word-character status of the preceding character for the leading `\b`
(every match starts with a digit, a word character). -/
def scadScan : Bool → List Char → Option (List Char)
  | _, [] => none
  | prev, c :: cs =>
    if !prev then
      match scadAt (c :: cs) with
      | some tok => some tok
      | none => scadScan (isWordChar c) cs
    else scadScan (isWordChar c) cs

/-- First match of `re.findall(SCADENZA_REGEX, s)`, i.e. the value of
`.str.findall(SCADENZA_REGEX).str[0]` for a present `Note` string
(`none` when there is no match). -/
def scadFirst (s : String) : Option String :=
  (scadScan false s.data).map (fun l => String.mk l)

/-- Calendar date (the date part of a parsed `datetime`). -/
structure Date where
  year : Int
  month : Int
  day : Int
deriving DecidableEq, Repr

def isLeapYear (y : Int) : Bool :=
  y % 4 = 0 && (y % 100 != 0 || y % 400 = 0)

def daysInMonth (y m : Int) : Int :=
  if m = 2 then (if isLeapYear y then 29 else 28)
  else if m = 4 || m = 6 || m = 9 || m = 11 then 30
  else 31

/-- Days since the Unix epoch of a civil date (proleptic Gregorian);
used to build concrete `datetime64[ns]` timestamps in the theorems. -/
def civilToDays (y m d : Int) : Int :=
  let y1 := if m ≤ 2 then y - 1 else y
  let era := y1.fdiv 400
  let yoe := y1 - era * 400
  let mp := (m + 9) % 12
  let doy := (153 * mp + 2).fdiv 5 + d - 1
  let doe := yoe * 365 + yoe.fdiv 4 - yoe.fdiv 100 + doy
  era * 146097 + doe - 719468

def nsPerDay : Int := 86400000000000

/-- Nanosecond timestamp (numpy `datetime64[ns]`) of midnight of a civil date. -/
def civilToNs (y m d : Int) : Int := civilToDays y m d * nsPerDay

/-- numpy's average Gregorian year used by the lossy timedelta cast to the
`Y` unit: 365.2425 days = 31556952 seconds, in nanoseconds. -/
def nsPerNumpyYear : Int := 31556952000000000

/-- Model of `series.astype("<m8[Y]")` applied to a `timedelta64[ns]` value:
numpy divides by the average year and truncates toward zero (pandas then
presents the integer as a float, which does not change comparisons). -/
def timedeltaNsToYears (t : Int) : Int := t.tdiv nsPerNumpyYear

/-- Age in whole calendar years between two civil dates.  Modelled from the
spec's words (claim C2: "whole years elapsed since `birth_date` relative to
the current date"), for comparison with the code's `timedeltaNsToYears`. -/
def calendarWholeYears (byr bmo bdy yr mo dy : Int) : Int :=
  (yr - byr) - (if mo < bmo || (mo = bmo && dy < bdy) then 1 else 0)

/-- Value of a list of decimal digit characters. -/
def digitsVal (l : List Char) : Nat :=
  l.foldl (fun a c => a * 10 + (c.toNat - 48)) 0

/-- Structure of a token matched by `SCADENZA_REGEX`: one or two digits, a
separator, one or two digits, optionally a separator and a 2-4 digit year.
The year is kept as its digit characters because `dateutil` treats 2-digit
and longer year tokens differently. -/
inductive YmdTok where
  | two (d1 : Nat) (s1 : Char) (d2 : Nat)
  | three (d1 : Nat) (s1 : Char) (d2 : Nat) (s2 : Char) (ytok : List Char)
deriving DecidableEq, Repr

/-- Decompose a string of the `SCADENZA_REGEX` token shape (`none` for any
other string; the pipeline only ever parses regex matches). -/
def lexYmdToken (l : List Char) : Option YmdTok :=
  let d1 := l.takeWhile Char.isDigit
  let r1 := l.dropWhile Char.isDigit
  if d1.length = 0 || 2 < d1.length then none else
  match r1 with
  | [] => none
  | s1 :: r2 =>
    if isSepChar s1 then
      let d2 := r2.takeWhile Char.isDigit
      let r3 := r2.dropWhile Char.isDigit
      if d2.length = 0 || 2 < d2.length then none else
      match r3 with
      | [] => some (.two (digitsVal d1) s1 (digitsVal d2))
      | s2 :: r4 =>
        if isSepChar s2 then
          let y := r4.takeWhile Char.isDigit
          let r5 := r4.dropWhile Char.isDigit
          if 2 ≤ y.length && y.length ≤ 4 && r5.isEmpty then
            some (.three (digitsVal d1) s1 (digitsVal d2) s2 y)
          else none
        else none
    else none

/-- dateutil `ParserInfo.convertyear`: a two-digit year with no century
specified is moved into the century of the current year `nowYear`, then
shifted by 100 years if it lands 50 or more years away from `nowYear`. -/
def convertyear (nowYear : Int) (centurySpecified : Bool) (y : Int) : Int :=
  if y < 100 && !centurySpecified then
    let y1 := y + (nowYear.ediv 100) * 100
    if 50 ≤ (y1 - nowYear).natAbs then
      (if y1 < nowYear then y1 + 100 else y1 - 100)
    else y1
  else y

/-- dateutil `_ymd.resolve_ymd` with one number (`yearfirst=False`,
`dayfirst=True`); result is `(year?, month?, day?)`. -/
def resolveYmd1 (a : Int) : Option Int × Option Int × Option Int :=
  if 31 < a then (some a, none, none) else (none, none, some a)

/-- dateutil `_ymd.resolve_ymd` with two numbers (`dayfirst=True`). -/
def resolveYmd2 (a b : Int) : Option Int × Option Int × Option Int :=
  if 31 < a then (some a, some b, none)
  else if 31 < b then (some b, some a, none)
  else if b ≤ 12 then (none, some b, some a)
  else (none, some a, some b)

/-- dateutil `_ymd.resolve_ymd` with three numbers (`yearfirst=False`,
`dayfirst=True`; no month name, so `mstridx` is unset, and the year index
can only be 2, so the `ystridx == 0` test is vacuous). -/
def resolveYmd3 (a b c : Int) : Option Int × Option Int × Option Int :=
  if 31 < a then
    (if c ≤ 12 then (some a, some c, some b) else (some a, some b, some c))
  else if 12 < a || b ≤ 12 then (some c, some b, some a)
  else (some c, some a, some b)

/-- dateutil `_build_naive` plus the `datetime` validation it triggers:
fill unresolved fields from the default date (clamping the default day to
the month length), convert the year, and fail on any field `datetime`
would reject. -/
def buildNaive (nowYear : Int) (defaultDate : Date) (centurySpecified : Bool)
    (ymd : Option Int × Option Int × Option Int) : Except Unit Date :=
  let y := match ymd.1 with
    | some yv => convertyear nowYear centurySpecified yv
    | none => defaultDate.year
  let m := ymd.2.1.getD defaultDate.month
  if 1 ≤ y && y ≤ 9999 && 1 ≤ m && m ≤ 12 then
    match ymd.2.2 with
    | some dv =>
      if 1 ≤ dv && dv ≤ daysInMonth y m then .ok ⟨y, m, dv⟩ else .error ()
    | none => .ok ⟨y, m, min (daysInMonth y m) defaultDate.day⟩
  else .error ()

/-- Model of `dateutil.parser.parse(s, dayfirst=True)` on the token shapes
producible by `SCADENZA_REGEX`, returning the date part (`.error` models a
raised `ParserError`).  Branches follow `_timelex` + `_parse`:
  * `d1.d2` (single dot, no year) lexes as ONE decimal number token, whose
    `int()` truncation contributes only `d1`;
  * `d1.d2.y` is re-split by the lexer into three numbers;
  * a `.` mixed with a different separator raises (`int("d1.d2")` resp. the
    month lookup on `"d2.y"` raises `ValueError`);
  * with uniform `/` or `-` separators the year token marks the century
    when it has more than two digits; with mixed `/` and `-` the year is
    appended as a number and marks the century only when greater than 100. -/
def dateutilParse (nowYear : Int) (defaultDate : Date) (s : String) : Except Unit Date :=
  match lexYmdToken s.data with
  | none => .error ()
  | some (.two d1 s1 d2) =>
    if s1 = '.' then
      buildNaive nowYear defaultDate false (resolveYmd1 (d1 : Int))
    else
      buildNaive nowYear defaultDate false (resolveYmd2 (d1 : Int) (d2 : Int))
  | some (.three d1 s1 d2 s2 ytok) =>
    if (s1 = '.') ≠ (s2 = '.') then .error ()
    else
      let century :=
        if s1 = s2 then decide (2 < ytok.length)
        else decide (100 < (digitsVal ytok : Int))
      buildNaive nowYear defaultDate century
        (resolveYmd3 (d1 : Int) (d2 : Int) (digitsVal ytok : Int))

/-- Decidable equality for `Except`, so that concrete runs of the fallible
stages can be checked by `decide`. -/
instance {ε α : Type} [DecidableEq ε] [DecidableEq α] : DecidableEq (Except ε α) := fun x y =>
  match x, y with
  | .ok a, .ok b =>
    if h : a = b then .isTrue (h ▸ rfl) else .isFalse (by intro hh; cases hh; exact h rfl)
  | .error a, .error b =>
    if h : a = b then .isTrue (h ▸ rfl) else .isFalse (by intro hh; cases hh; exact h rfl)
  | .ok _, .error _ => .isFalse (by intro hh; cases hh)
  | .error _, .ok _ => .isFalse (by intro hh; cases hh)

/-- Log levels used by `vm/test.py` (`logger.debug/warning/error`). -/
inductive LogLevel where
  | debug
  | warning
  | error
deriving DecidableEq, Repr

/-- One emitted log record; the stages return their log side effects
explicitly since several claims are about logging. -/
structure LogEntry where
  level : LogLevel
  msg : String
deriving DecidableEq, Repr

/-- One row of the patients DataFrame.  The source columns are
`Data_Di_Nascita` (a `datetime64[ns]`, embedded as epoch nanoseconds),
`Descrizione_BusinessPartner`, `Istituto`, `Esame` and `Note` (nullable).
The remaining fields are the columns added by the stages, `none` until the
corresponding stage has run (NaN/NaT is also embedded as `none`). -/
structure Row where
  dataDiNascita : Int := 0
  descrizioneBusinessPartner : String := ""
  istituto : Int := 0
  esame : String := ""
  note : Option String := none
  age : Option Int := none
  pnr : Option (List String) := none
  secondPnr : Option Bool := none
  idPrestazioni : Option Int := none
  typePrestazioni : Option String := none
  scad : Option Date := none
deriving DecidableEq, Repr

/-- The age column value: `(pd.Timestamp("now") - df["Data_Di_Nascita"]).astype("<m8[Y]")`. -/
def ageOf (now : Int) (r : Row) : Int :=
  timedeltaNsToYears (now - r.dataDiNascita)

/-- `filter_minor_from_df`: assigns the `age` column on every row, keeps the
rows with `age >= 18`, and logs the number of dropped minors (or an explicit
no-minor debug notice). -/
def filter_minor_from_df (now : Int) (rows : List Row) : List Row × List LogEntry :=
  let withAge := rows.map (fun r => { r with age := some (ageOf now r) })
  let result := withAge.filter (fun r =>
    match r.age with
    | some a => decide (18 ≤ a)
    | none => false)
  let nbMinor := rows.length - result.length
  (result,
    if 0 < nbMinor then
      [⟨.debug, s!"{nbMinor} patients were minor and therefore dropped from the file"⟩]
    else
      [⟨.debug, "No minor patient detected"⟩])

/-- `filter_accepted_insurances`: keeps the rows whose
`Descrizione_BusinessPartner` is in the accepted tuple.  The source computes
`nb_patient_after = len(df_patients.index)` from the INPUT frame
(`df_patients`), not from `result`; both counts are therefore read from the
same unfiltered frame, which the model reproduces literally. -/
def filter_accepted_insurances (rows : List Row) (acceptedInsurances : List String) :
    List Row × List LogEntry :=
  let result := rows.filter (fun r =>
    acceptedInsurances.contains r.descrizioneBusinessPartner)
  let nbBefore := rows.length
  let nbAfter := rows.length
  (result,
    if nbBefore ≠ nbAfter then
      let dropped := nbBefore - nbAfter
      [⟨.warning, s!"{dropped} patients were dropped because they don\x27t have the correct insurance, this should not happen"⟩]
    else [])

/-- The `PNR` column value for one row: `findall` over a present note, and
`eval("[]") = []` where the aligned series left NaN (absent note). -/
def extractPnr (r : Row) : List String :=
  match r.note with
  | some s => pnrFindall s
  | none => []

/-- `add_pnr_to_df`: assigns the `PNR` column (a list for every row).  The
column assignments leave the frame's length unchanged, so the before/after
counts always agree and the `DATA WAS LOST` error can never be logged. -/
def add_pnr_to_df (rows : List Row) : List Row × List LogEntry :=
  let result := rows.map (fun r => { r with pnr := some (extractPnr r) })
  let nbBefore := rows.length
  let nbAfter := result.length
  (result,
    if nbBefore ≠ nbAfter then
      let dropped := nbBefore - nbAfter
      [⟨.error, s!"{dropped} patients were dropped because of their ESAME. This REALLY should not happen. DATA WAS LOST ! "⟩]
    else [])

/-- The `second_pnr` flag of one row: the source initialises the column to
`False` and sets it to `True` on the index sets `Istituto == 1 ∧ Esame ∈ OSR`
and `Istituto == 8 ∧ Esame ∈ SRT` (the frame's index is unique here, so the
`.loc` updates are exactly this per-row condition). -/
def secondPnrFlag (osr srt : List String) (r : Row) : Bool :=
  (r.istituto == 1 && osr.contains r.esame) || (r.istituto == 8 && srt.contains r.esame)

/-- `add_check_2nd_pnr`: adds the `second_pnr` column and logs how many rows
were flagged.  The OSR/SRT sheets are passed as their `Prestazione` column
lists. -/
def add_check_2nd_pnr (rows : List Row) (osr srt : List String) : List Row × List LogEntry :=
  let result := rows.map (fun r => { r with secondPnr := some (secondPnrFlag osr srt r) })
  let nbSecond := (result.filter (fun r => r.secondPnr == some true)).length
  (result, [⟨.debug, s!"{nbSecond} patients need a second pnr"⟩])

/-- `DICT_PRESTAZIONNE` from `vm/constants.py` as a finite lookup map, composed
with `Series.map` semantics: an id outside the dict maps to NaN (`none`). -/
def DICT_PRESTAZIONNE : Int → Option String
  | 1 => some "ALTRE PRESTAZIONI O NESSUNA DELL\x27ELENCO"
  | 2 => some "Visite specialistiche"
  | 3 => some "Prestazioni di fisioterapia (MAX 500E/ANNO)"
  | 4 => some "Chirurgia dermatologica"
  | 5 => some "Visite specialistiche in gravidanza (assistito)"
  | 6 => some "Ecografie in gravidanza"
  | 7 => some "Visite specialistiche pediatriche (tutela del figlio)"
  | 8 => some "Prevenzione"
  | 9 => some "Fisioterapia oltre 500E SOLO PER CONDIZIONI SPECIALI"
  | 10 => some "Visite specialistiche (tutela del figlio, non pediatriche)"
  | _ => none

/-- One row of the `Codice` lookup sheet.  `rest` stands for any further
columns of the sheet: `drop_duplicates` in the source runs on the WHOLE row
before the two join columns are selected, so rows equal on the join columns
but different elsewhere both survive deduplication. -/
structure CatRow where
  codiceEsameSap : String
  idPrestazioni : Int
  rest : List String := []
deriving DecidableEq, Repr

/-- `DataFrame.drop_duplicates` (keep="first"): first occurrence of each
fully-equal row is kept, in order. -/
def dedupKeepFirst (l : List CatRow) : List CatRow :=
  l.foldl (fun acc x => if x ∈ acc then acc else acc ++ [x]) []

/-- The rows a single left row produces in `pd.merge(..., how="left")`:
one row per matching right row (in the right frame's order), or a single
row with NaN fill when there is no match.  The `type_prestazioni` column is
then `joined["ID prestazioni"].map(DICT_PRESTAZIONNE)`. -/
def catExpand (tbl : List (String × Int)) (r : Row) : List Row :=
  let ms := tbl.filter (fun c => decide (c.1 = r.esame))
  match ms with
  | [] => [{ r with idPrestazioni := none, typePrestazioni := none }]
  | _ => ms.map (fun c =>
      { r with idPrestazioni := some c.2, typePrestazioni := DICT_PRESTAZIONNE c.2 })

/-- `add_cat_code`: deduplicate the lookup sheet, select the two join
columns, left-merge on `Esame`, map the category ids through
`DICT_PRESTAZIONNE`, and log an error if the merge changed the row count.
A pandas left merge keeps the left frame's row order, so the result is the
concatenation of each row's expansion. -/
def add_cat_code (rows : List Row) (catSheet : List CatRow) : List Row × List LogEntry :=
  let dfCat := dedupKeepFirst catSheet
  let joinRight := dfCat.map (fun c => (c.codiceEsameSap, c.idPrestazioni))
  let joined := rows.flatMap (catExpand joinRight)
  let nbBefore := rows.length
  let nbAfter := joined.length
  (joined,
    if nbBefore ≠ nbAfter then
      let dropped : Int := (nbBefore : Int) - (nbAfter : Int)
      [⟨.error, s!"{dropped} patients were dropped because of their ESAME. This REALLY should not happen. DATA WAS LOST !"⟩]
    else [])

/-- The `scad` value of one row in `extract_scadenza_from_df`: rows with an
absent note or no regex match fall out of the intermediate series and end as
NaT (`none`) after the aligned column assignment; a matched token is given
to `dateutil.parser.parse(..., dayfirst=True)`, whose `ParserError`
propagates out of `Series.apply` and aborts the stage. -/
def extractScadRow (nowYear : Int) (defaultDate : Date) (r : Row) : Except Unit Row :=
  match r.note with
  | none => .ok { r with scad := none }
  | some s =>
    match scadFirst s with
    | none => .ok { r with scad := none }
    | some tok => (dateutilParse nowYear defaultDate tok).map (fun d => { r with scad := some d })

/-- `extract_scadenza_from_df`: parse the first date-like token of each
note into the `scad` column.  The before/after counts are both read from
`df_patients`, whose length the column assignment does not change, so the
error branch is again unreachable. -/
def extract_scadenza_from_df (nowYear : Int) (defaultDate : Date) (rows : List Row) :
    Except Unit (List Row × List LogEntry) :=
  (rows.mapM (extractScadRow nowYear defaultDate)).map (fun result =>
    (result,
      if rows.length ≠ result.length then
        [⟨.error, "patients were dropped because of their Scadenza. This REALLY should not happen. DATA WAS LOST ! "⟩]
      else []))

/-- Accepted insurances from `vm/constants.py`. -/
def QUAS : String := "QUAS"

def QUAS_PENSIONATI : String := "QUAS-PENSIONATI"

/-- The stage sequence of `create_df_from_excel` after the header has been
established: the initially-detected record count is logged, the two filters
and four enrichment stages run in order, and `.ok` models reaching
`df_patients.to_csv(result_file)`, i.e. the run writing its output file.
Any raised error (`ParserError` from the expiration stage) propagates and
no output is produced. -/
def createDfPipeline (now nowYear : Int) (defaultDate : Date)
    (accepted osr srt : List String) (catSheet : List CatRow) (rows : List Row) :
    Except Unit (List Row × List LogEntry) :=
  let nbPatient := rows.length
  let g0 := [LogEntry.mk .debug s!"Excel read {nbPatient} detected"]
  let p1 := filter_minor_from_df now rows
  let p2 := filter_accepted_insurances p1.1 accepted
  let p3 := add_pnr_to_df p2.1
  let p4 := add_check_2nd_pnr p3.1 osr srt
  let p5 := add_cat_code p4.1 catSheet
  match extract_scadenza_from_df nowYear defaultDate p5.1 with
  | .error e => .error e
  | .ok p6 => .ok (p6.1, g0 ++ p1.2 ++ p2.2 ++ p3.2 ++ p4.2 ++ p5.2 ++ p6.2)

/-- A pandas column label: reading a sheet with `header=None` labels the
columns with the integers `0..width-1`; assigning `df.columns` installs
string labels. -/
inductive ColLabel where
  | pos (i : Nat)
  | name (s : String)
deriving DecidableEq, Repr

/-- Number of columns pandas infers for a sheet: the maximum row width. -/
def sheetWidth (rows : List (List String)) : Nat :=
  rows.foldl (fun a r => max a r.length) 0

/-- Columns of `pd.read_excel(xls, QUAS, header=None)`: positional integer
labels, so they can never contain the string label the code tests for. -/
def noHeaderColumns (rows : List (List String)) : List ColLabel :=
  (List.range (sheetWidth rows)).map .pos

/-- The column name whose absence triggers the header fallback. -/
def expectedCol : ColLabel := .name "Descrizione_BusinessPartner"

/-- Columns of `pd.read_excel(xls, "Tabella", header=1)`: the row at offset
1 of the `Tabella` sheet supplies the names; pandas fills any cells missing
at the end of that row with `Unnamed: i` placeholders up to the sheet
width. -/
def tabellaHeaderNames (tRows : List (List String)) : List ColLabel :=
  let hdr := (tRows.drop 1).headD []
  (List.range (sheetWidth tRows)).map (fun i =>
    if i < hdr.length then ColLabel.name (hdr.getD i "") else ColLabel.name s!"Unnamed: {i}")

/-- Header-establishment phase of `create_df_from_excel`: read the `QUAS`
sheet with `header=None`; if `"Descrizione_BusinessPartner"` is not among
the columns (with `header=None` it never is), re-read the header from the
`Tabella` sheet at row offset 1 and assign it to the data frame's columns
positionally.  `.error` models the exceptions pandas raises when no valid
header can be established: a missing `Tabella` sheet, no row at the header
offset, or a column-count mismatch in the `df_patients.columns` assignment
("Length mismatch"). -/
def create_df_from_excel_header (quas : List (List String))
    (tab : Option (List (List String))) :
    Except Unit (List ColLabel × List (List String)) :=
  let cols := noHeaderColumns quas
  if expectedCol ∈ cols then .ok (cols, quas)
  else
    match tab with
    | none => .error ()
    | some tRows =>
      if tRows.length ≤ 1 then .error ()
      else
        let names := tabellaHeaderNames tRows
        if names.length = sheetWidth quas then .ok (names, quas) else .error ()

/-- Resetting the columns `add_cat_code` adds, to state that the merge
output rows are their originating input rows. -/
def eraseCatCols (r : Row) : Row :=
  { r with idPrestazioni := none, typePrestazioni := none }

/-- The join table `add_cat_code` derives from a lookup sheet. -/
def catJoinTable (catSheet : List CatRow) : List (String × Int) :=
  (dedupKeepFirst catSheet).map (fun c => (c.codiceEsameSap, c.idPrestazioni))

/-- Concrete timestamp for the counterexample runs: 2026-10-12 00:00. -/
def exNow : Int := civilToNs 2026 10 12

/-- Concrete default date dateutil derives from the current date. -/
def exToday : Date := ⟨2026, 10, 12⟩

/-- A lookup sheet whose rows are pairwise distinct (so `drop_duplicates`
keeps both) but share the exam code `"E1"` with different category ids. -/
def dupKeyCatSheet : List CatRow :=
  [⟨"E1", 1, ["a"]⟩, ⟨"E1", 2, ["b"]⟩]

/-- An adult patient with accepted insurance and exam code `"E1"`. -/
def adultRow : Row :=
  { dataDiNascita := civilToNs 1980 1 1
    descrizioneBusinessPartner := "QUAS"
    istituto := 1
    esame := "E1"
    note := none }

/-- The counterexample pipeline run for claim C1: one surviving record,
duplicate-key category lookup. -/
def dupKeyRun : Except Unit (List Row × List LogEntry) :=
  createDfPipeline exNow 2026 exToday [QUAS, QUAS_PENSIONATI] [] [] dupKeyCatSheet [adultRow]

/-- The expiration value a record receives when the stage completes: the
day-first parse of the first `SCADENZA_REGEX` match of its note, `none`
when the note is absent or matchless. -/
def scadExpected (nowYear : Int) (defaultDate : Date) (r : Row) : Option Date :=
  (r.note.bind scadFirst).bind (fun t => (dateutilParse nowYear defaultDate t).toOption)

/-- Every token emitted by the PNR scan has the 8-character `[XB][XB]\w{6}`
shape (it is only ever emitted under that guard). -/
theorem pnrScan_mem_shape : ∀ (prev : Bool) (l : List Char) (t : List Char),
    t ∈ pnrScan prev l → isPnrShape t = true ∧ t.length = 8 := by
  intro prev l
  induction prev, l using pnrScan.induct with
  | case1 => intro t h; simp [pnrScan] at h
  | case2 prev c0 c1 c2 c3 c4 c5 c6 c7 rest hguard ih =>
    intro t h
    rw [pnrScan, if_pos hguard] at h
    rcases List.mem_cons.mp h with h | h
    · subst h
      refine ⟨?_, rfl⟩
      have := hguard
      simp only [Bool.and_eq_true] at this
      exact this.1.2
    · exact ih t h
  | case3 prev c0 c1 c2 c3 c4 c5 c6 c7 rest hguard ih =>
    intro t h
    rw [pnrScan, if_neg hguard] at h
    exact ih t h
  | case4 prev c cs h1 ih =>
    intro t h
    rw [pnrScan] at h
    · exact ih t h
    · exact h1

/-- C4: PNR extraction sets `pnr_codes` on every record to the ordered list
of non-overlapping `PNR_REGEX` matches of its notes (an 8-character token
`[XB][XB]\w{6}` between word boundaries, case-insensitively); an absent
note yields the empty list; no record is dropped or reordered (the stage is
a per-row map) and nothing is logged. -/
theorem C4_pnr_extraction (rows : List Row) :
    (add_pnr_to_df rows).1 = rows.map (fun r => { r with pnr := some (extractPnr r) }) ∧
    (add_pnr_to_df rows).1.length = rows.length ∧
    (add_pnr_to_df rows).2 = [] ∧
    (∀ r : Row, r.note = none → extractPnr r = []) ∧
    (∀ s t, t ∈ pnrFindall s → t.length = 8 ∧ isPnrShape t.data = true) ∧
    pnrFindall "ref XX123456 and BB654321 done" = ["XX123456", "BB654321"] ∧
    pnrFindall "case bx12345Z works" = ["bx12345Z"] ∧
    pnrFindall "no codes here" = [] := by
  refine ⟨rfl, by simp [add_pnr_to_df], by simp [add_pnr_to_df], fun r h => ?_, ?_, by decide, by decide, by decide⟩
  · simp [extractPnr, h]
  · intro s t ht
    rcases List.mem_map.mp ht with ⟨u, hu, rfl⟩
    have := pnrScan_mem_shape false s.data u hu
    exact ⟨this.2, this.1⟩

/-- C4 witness: the shape clause applied to the concrete match of the
spec's example string. -/
theorem C4_pnr_extraction_witness :
    "XX123456".length = 8 ∧ isPnrShape "XX123456".data = true :=
  (C4_pnr_extraction []).2.2.2.2.1 "ref XX123456 and BB654321 done" "XX123456" (by decide)

/-- C5: the second-PNR stage is a per-row map, and a record is flagged
exactly when `institute_id = 1` with `exam_code` in the OSR list or
`institute_id = 8` with `exam_code` in the SRT list; any other institute is
never flagged. -/
theorem C5_second_pnr_flag (rows : List Row) (osr srt : List String) :
    (add_check_2nd_pnr rows osr srt).1
        = rows.map (fun r => { r with secondPnr := some (secondPnrFlag osr srt r) }) ∧
    (∀ r : Row, secondPnrFlag osr srt r = true ↔
        (r.istituto = 1 ∧ r.esame ∈ osr) ∨ (r.istituto = 8 ∧ r.esame ∈ srt)) ∧
    (∀ r : Row, r.istituto ≠ 1 → r.istituto ≠ 8 → secondPnrFlag osr srt r = false) := by
  refine ⟨rfl, fun r => ?_, fun r h1 h8 => ?_⟩
  · simp [secondPnrFlag]
  · simp [secondPnrFlag, h1, h8]

/-- C5 witness: institute 1 with an exam code in the OSR list is flagged;
institute 2 with the same exam code is not. -/
theorem C5_second_pnr_flag_witness :
    secondPnrFlag ["EX1"] [] { istituto := 1, esame := "EX1" } = true ∧
    secondPnrFlag ["EX1"] [] { istituto := 2, esame := "EX1" } = false :=
  ⟨((C5_second_pnr_flag [] ["EX1"] []).2.1 { istituto := 1, esame := "EX1" }).mpr
      (Or.inl ⟨rfl, by decide⟩),
   (C5_second_pnr_flag [] ["EX1"] []).2.2 { istituto := 2, esame := "EX1" }
      (by decide) (by decide)⟩

/-- C2 (code bug): a patient born exactly 18 calendar years before "now"
(born 2008-10-12, now 2026-10-12 00:00) is dropped by the age filter: the
interval contains 4 leap days, i.e. 6574 days, and the code's
`astype("<m8[Y]")` cast computes `6574 days / 365.2425 days = 17`, although
the whole-calendar-years age is 18.  A patient born 18 years minus one day
before now is dropped as well. -/
theorem C2_exact_18th_birthday_dropped :
    calendarWholeYears 2008 10 12 2026 10 12 = 18 ∧
    ageOf exNow { dataDiNascita := civilToNs 2008 10 12 } = 17 ∧
    (filter_minor_from_df exNow [{ dataDiNascita := civilToNs 2008 10 12 }]).1 = [] ∧
    (filter_minor_from_df exNow [{ dataDiNascita := civilToNs 2008 10 13 }]).1 = [] := by
  decide

/-- C3 (code bug): the insurance filter keeps exactly the rows whose
insurance description is in the accepted tuple (exact, case-sensitive
match), but its warning can never be logged: the source reads
`nb_patient_after` from the input frame, so the two counts always agree
and the log list is empty even when records were removed. -/
theorem C3_insurance_filter_warning_dead :
    (∀ rows acc, (filter_accepted_insurances rows acc).1
        = rows.filter (fun r => acc.contains r.descrizioneBusinessPartner)) ∧
    (∀ rows acc, (filter_accepted_insurances rows acc).2 = []) ∧
    (filter_accepted_insurances [{ descrizioneBusinessPartner := "quas" }] [QUAS]).1 = [] ∧
    (filter_accepted_insurances [{ descrizioneBusinessPartner := "quas" }] [QUAS]).2 = [] := by
  refine ⟨fun rows acc => rfl, fun rows acc => ?_, by decide, by decide⟩
  simp [filter_accepted_insurances]

/-- C10: the expiration stage is not total on records with present notes:
`"scad 99/99/2024"` contains a token matched by `SCADENZA_REGEX` that
denotes no valid calendar date, `dateutil` raises, and the stage fails
instead of yielding a null `expiration_date`. -/
theorem C10_scadenza_parse_not_total :
    scadFirst "scad 99/99/2024" = some "99/99/2024" ∧
    dateutilParse 2026 exToday "99/99/2024" = .error () ∧
    extract_scadenza_from_df 2026 exToday [{ note := some "scad 99/99/2024" }] = .error () := by
  decide

/-- A successful scadenza extraction on one row yields exactly the row with
its `scad` column set to the parse of the first regex match of its note. -/
theorem extractScadRow_ok (nowYear : Int) (defaultDate : Date) (r x : Row)
    (h : extractScadRow nowYear defaultDate r = .ok x) :
    x = { r with scad := scadExpected nowYear defaultDate r } := by
  cases hn : r.note with
  | none =>
    simp only [extractScadRow, hn] at h
    cases h
    simp [scadExpected, hn]
  | some s =>
    cases hs : scadFirst s with
    | none =>
      simp only [extractScadRow, hn, hs] at h
      cases h
      simp [scadExpected, hn, hs]
    | some tok =>
      cases hp : dateutilParse nowYear defaultDate tok with
      | error e =>
        simp only [extractScadRow, hn, hs, hp, Except.map] at h
        cases h
      | ok d =>
        simp only [extractScadRow, hn, hs, hp, Except.map] at h
        cases h
        simp [scadExpected, hn, hs, hp, Except.toOption]

/-- A successful `mapM` of the per-row scadenza extraction is the
corresponding per-row map. -/
theorem extractScad_mapM_ok (nowYear : Int) (defaultDate : Date) :
    ∀ (rows out : List Row),
      rows.mapM (extractScadRow nowYear defaultDate) = Except.ok out →
      out = rows.map (fun r => { r with scad := scadExpected nowYear defaultDate r }) := by
  intro rows
  induction rows with
  | nil =>
    intro out h
    cases h
    rfl
  | cons r rs ih =>
    intro out h
    rw [List.mapM_cons] at h
    cases hf : extractScadRow nowYear defaultDate r with
    | error e => rw [hf] at h; cases h
    | ok x =>
      rw [hf] at h
      cases hm : rs.mapM (extractScadRow nowYear defaultDate) with
      | error e => rw [hm] at h; cases h
      | ok xs =>
        rw [hm] at h
        cases h
        rw [List.map_cons, ← ih xs hm, ← extractScadRow_ok nowYear defaultDate r x hf]

/-- C7: when the expiration stage completes, every record's
`expiration_date` is the day-first parse of the FIRST `SCADENZA_REGEX`
match of its notes, `none` when the notes are absent or contain no match;
the record count is preserved and nothing is logged.  Ambiguous
three-number tokens (day and month both at most 12) resolve with the day
before the month, and the spec's example parses to 5 June 2024. -/
theorem C7_expiration_extraction (nowYear : Int) (defaultDate : Date)
    (rows out : List Row) (logs : List LogEntry)
    (h : extract_scadenza_from_df nowYear defaultDate rows = .ok (out, logs)) :
    out = rows.map (fun r => { r with scad := scadExpected nowYear defaultDate r }) ∧
    out.length = rows.length ∧ logs = [] ∧
    (∀ a b c : Int, a ≤ 12 → b ≤ 12 → resolveYmd3 a b c = (some c, some b, some a)) ∧
    extract_scadenza_from_df 2026 exToday [{ note := some "scad 05/06/2024 other text" }]
      = .ok ([{ note := some "scad 05/06/2024 other text", scad := some ⟨2024, 6, 5⟩ }], []) ∧
    extract_scadenza_from_df 2026 exToday [{ note := some "nothing datelike" }]
      = .ok ([{ note := some "nothing datelike", scad := none }], []) := by
  unfold extract_scadenza_from_df at h
  cases hm : rows.mapM (extractScadRow nowYear defaultDate) with
  | error e => rw [hm] at h; cases h
  | ok res =>
    rw [hm] at h
    simp only [Except.map] at h
    have hp := Except.ok.inj h
    have hout : out = res := (congrArg Prod.fst hp).symm
    have hchar : out = rows.map (fun r => { r with scad := scadExpected nowYear defaultDate r }) :=
      hout.trans (extractScad_mapM_ok nowYear defaultDate rows res hm)
    have hlen : out.length = rows.length := by rw [hchar, List.length_map]
    have hlogs : logs = [] := by
      have h2 := (congrArg Prod.snd hp).symm
      have hrl : rows.length = res.length := by rw [← hout, hlen]
      simpa [hrl] using h2
    refine ⟨hchar, hlen, hlogs, ?_, by decide, by decide⟩
    intro a b c ha hb
    have h31 : ¬(31 < a) := by omega
    simp [resolveYmd3, h31, hb]

/-- C7 witness: the theorem applied to the spec's example record. -/
theorem C7_expiration_extraction_witness :
    extract_scadenza_from_df 2026 exToday [{ note := some "scad 05/06/2024 other text" }]
      = .ok ([{ note := some "scad 05/06/2024 other text", scad := some ⟨2024, 6, 5⟩ }], []) ∧
    ([{ note := some "scad 05/06/2024 other text", scad := some ⟨2024, 6, 5⟩ }] : List Row).length
      = ([{ note := some "scad 05/06/2024 other text" }] : List Row).length :=
  ⟨by decide,
   (C7_expiration_extraction 2026 exToday
      [{ note := some "scad 05/06/2024 other text" }]
      [{ note := some "scad 05/06/2024 other text", scad := some ⟨2024, 6, 5⟩ }]
      [] (by decide)).2.1⟩

/-- Row characterization of any successful expiration-stage output. -/
theorem extract_ok_rows (nowYear : Int) (dD : Date) (rows out : List Row) (logs : List LogEntry)
    (h : extract_scadenza_from_df nowYear dD rows = .ok (out, logs)) :
    out = rows.map (fun r => { r with scad := scadExpected nowYear dD r }) := by
  unfold extract_scadenza_from_df at h
  cases hm : rows.mapM (extractScadRow nowYear dD) with
  | error e => rw [hm] at h; cases h
  | ok res =>
    rw [hm] at h
    simp only [Except.map] at h
    have hp := Except.ok.inj h
    exact ((congrArg Prod.fst hp).symm).trans (extractScad_mapM_ok nowYear dD rows res hm)

/-- C9: each stage preserves the relative order of the surviving input
records, and the two filter stages only remove records.  The filters
produce sublists (order-preserving, no fabrication or duplication); the
PNR, second-PNR and expiration stages are per-row maps; the category merge
is an order-preserving expansion in which every input record yields at
least one output row, every one of which is that input record up to the
two added columns. -/
theorem C9_order_and_removal_only :
    (∀ (now : Int) (rows : List Row),
       ((filter_minor_from_df now rows).1).Sublist
         (rows.map (fun r => { r with age := some (ageOf now r) }))) ∧
    (∀ (rows : List Row) (acc : List String),
       ((filter_accepted_insurances rows acc).1).Sublist rows) ∧
    (∀ rows : List Row, (add_pnr_to_df rows).1
       = rows.map (fun r => { r with pnr := some (extractPnr r) })) ∧
    (∀ (rows : List Row) (osr srt : List String), (add_check_2nd_pnr rows osr srt).1
       = rows.map (fun r => { r with secondPnr := some (secondPnrFlag osr srt r) })) ∧
    (∀ (rows : List Row) (cat : List CatRow),
       (add_cat_code rows cat).1 = rows.flatMap (catExpand (catJoinTable cat))) ∧
    (∀ (tbl : List (String × Int)) (r : Row), 1 ≤ (catExpand tbl r).length) ∧
    (∀ (tbl : List (String × Int)) (r : Row),
       (catExpand tbl r).map eraseCatCols
         = List.replicate (catExpand tbl r).length (eraseCatCols r)) ∧
    (∀ (nowYear : Int) (dD : Date) (rows out : List Row) (logs : List LogEntry),
       extract_scadenza_from_df nowYear dD rows = .ok (out, logs) →
       out.map (fun r => { r with scad := none })
         = rows.map (fun r => { r with scad := none })) := by
  refine ⟨?_, ?_, fun rows => rfl, fun rows osr srt => rfl, fun rows cat => rfl, ?_, ?_, ?_⟩
  · intro now rows
    exact List.filter_sublist _
  · intro rows acc
    exact List.filter_sublist _
  · intro tbl r
    cases hm : tbl.filter (fun c => decide (c.1 = r.esame)) with
    | nil => simp [catExpand, hm]
    | cons a l => simp [catExpand, hm]
  · intro tbl r
    cases hm : tbl.filter (fun c => decide (c.1 = r.esame)) with
    | nil => simp [catExpand, hm, eraseCatCols]
    | cons a l =>
      simp only [catExpand, hm, List.map_map]
      refine List.eq_replicate_iff.mpr ⟨by simp, ?_⟩
      intro b hb
      rcases List.mem_map.mp hb with ⟨c, hc, rfl⟩
      rfl
  · intro nowYear dD rows out logs h
    rw [extract_ok_rows nowYear dD rows out logs h, List.map_map]
    rfl

/-- C9 witness: the expiration-stage clause applied to a concrete run. -/
theorem C9_order_and_removal_only_witness :
    extract_scadenza_from_df 2026 exToday [{ esame := "X" }] = .ok ([{ esame := "X" }], []) ∧
    ([{ esame := "X" }] : List Row).map (fun r => { r with scad := none })
      = ([{ esame := "X" }] : List Row).map (fun r => { r with scad := none }) :=
  ⟨by decide,
   C9_order_and_removal_only.2.2.2.2.2.2.2 2026 exToday
     [{ esame := "X" }] [{ esame := "X" }] [] (by decide)⟩

/-- C8: with `header=None` the data sheet's columns are positional integers,
so the expected name is never among them and the extractor always re-reads
the header from the `Tabella` sheet at row offset 1, applying its names to
the data rows positionally; when the secondary sheet is missing or its
header does not fit the data sheet's width, the extractor fails. -/
theorem C8_header_fallback (quas : List (List String)) (tab : Option (List (List String))) :
    expectedCol ∉ noHeaderColumns quas ∧
    (tab = none → create_df_from_excel_header quas tab = .error ()) ∧
    (∀ tRows, tab = some tRows → 2 ≤ tRows.length →
       (tabellaHeaderNames tRows).length = sheetWidth quas →
       create_df_from_excel_header quas tab = .ok (tabellaHeaderNames tRows, quas)) ∧
    (∀ tRows, tab = some tRows → 2 ≤ tRows.length →
       (tabellaHeaderNames tRows).length ≠ sheetWidth quas →
       create_df_from_excel_header quas tab = .error ()) := by
  have hmem : expectedCol ∉ noHeaderColumns quas := by
    simp [noHeaderColumns, expectedCol]
  refine ⟨hmem, ?_, ?_, ?_⟩
  · intro htab
    subst htab
    simp [create_df_from_excel_header, hmem]
  · intro tRows htab hlen hw
    subst htab
    have h2 : ¬(tRows.length ≤ 1) := by omega
    simp [create_df_from_excel_header, hmem, h2, hw]
  · intro tRows htab hlen hw
    subst htab
    have h2 : ¬(tRows.length ≤ 1) := by omega
    simp [create_df_from_excel_header, hmem, h2, hw]

/-- C8 witness: a two-column data sheet and a `Tabella` sheet whose offset-1
row supplies two names. -/
theorem C8_header_fallback_witness :
    2 ≤ ([[], ["H1", "H2"]] : List (List String)).length ∧
    (tabellaHeaderNames [[], ["H1", "H2"]]).length = sheetWidth [["a", "b"]] ∧
    create_df_from_excel_header [["a", "b"]] (some [[], ["H1", "H2"]])
      = .ok (tabellaHeaderNames [[], ["H1", "H2"]], [["a", "b"]]) :=
  ⟨by decide, by decide,
   (C8_header_fallback [["a", "b"]] (some [[], ["H1", "H2"]])).2.2.1
     [[], ["H1", "H2"]] rfl (by decide) (by decide)⟩

/-- C1 counterexample: a run in which the category-mapping enrichment
changes the record count (1 surviving record becomes 2 joined rows, and an
error-level entry is logged) still completes and produces its output file,
instead of aborting with no output as claimed. -/
theorem C1_counterexample_output_despite_count_change :
    dupKeyRun.isOk = true ∧
    dupKeyRun.map (fun p => p.1.length) = .ok 2 ∧
    dupKeyRun.map (fun p => p.2.countP (fun e => e.level == .error)) = .ok 1 := by
  decide

/-- C1 amended: a record-count change in the category-mapping enrichment is
reported, but only as an error-level log entry; the run is not aborted and
the output file is still produced (demonstrated by the duplicate-key run,
which writes 2 records). -/
theorem C1_count_change_only_logged :
    (∀ (rows : List Row) (catSheet : List CatRow),
       (add_cat_code rows catSheet).1.length ≠ rows.length →
       ∃ e ∈ (add_cat_code rows catSheet).2, e.level = .error) ∧
    dupKeyRun.isOk = true ∧
    dupKeyRun.map (fun p => p.1.length) = .ok 2 := by
  refine ⟨?_, by decide, by decide⟩
  intro rows catSheet h
  simp only [add_cat_code] at h ⊢
  split
  · exact ⟨_, List.mem_cons_self _ _, rfl⟩
  · next hcond => exact absurd (Ne.symm h) hcond

/-- C1 witness: the log clause applied to the duplicate-key lookup. -/
theorem C1_count_change_only_logged_witness :
    (add_cat_code [adultRow] dupKeyCatSheet).1.length ≠ ([adultRow] : List Row).length ∧
    (∃ e ∈ (add_cat_code [adultRow] dupKeyCatSheet).2, e.level = .error) :=
  ⟨by decide, C1_count_change_only_logged.1 [adultRow] dupKeyCatSheet (by decide)⟩

/-- C6 counterexample: the lookup sheet deduplication is on whole rows, so
a table whose rows differ outside the join columns keeps a duplicated exam
code, and the left merge then emits one input record twice. -/
theorem C6_counterexample_duplicate_key :
    dedupKeepFirst dupKeyCatSheet = dupKeyCatSheet ∧
    (add_cat_code [adultRow] dupKeyCatSheet).1.length = 2 := by
  decide

/-- With pairwise-distinct keys, filtering on a key yields the `find?`
result (at most one row can match). -/
theorem filter_of_pairwise_key (tbl : List (String × Int))
    (h : tbl.Pairwise (fun a b => a.1 ≠ b.1)) (k : String) :
    tbl.filter (fun c => decide (c.1 = k))
      = ((tbl.find? (fun c => c.1 == k)).elim [] (fun c => [c])) := by
  induction tbl with
  | nil => rfl
  | cons a l ih =>
    rcases List.pairwise_cons.mp h with ⟨ha, hl⟩
    by_cases hk : a.1 = k
    · have hfl : l.filter (fun c => decide (c.1 = k)) = [] := by
        refine List.filter_eq_nil_iff.mpr ?_
        intro c hc
        have hne : c.1 ≠ k := fun hck => (ha c hc) (hk.trans hck.symm)
        simp [hne]
      simp [List.filter_cons, List.find?_cons, hk, hfl]
    · have hb : (a.1 == k) = false := by simp [hk]
      simp [List.filter_cons, List.find?_cons, hk, hb, ih hl]

/-- With pairwise-distinct keys, every record expands to exactly one joined
row: the match through `find?`, or the NaN-filled row. -/
theorem catExpand_of_unique (tbl : List (String × Int))
    (h : tbl.Pairwise (fun a b => a.1 ≠ b.1)) (r : Row) :
    catExpand tbl r
      = [(tbl.find? (fun c => c.1 == r.esame)).elim
          { r with idPrestazioni := none, typePrestazioni := none }
          (fun c => { r with idPrestazioni := some c.2, typePrestazioni := DICT_PRESTAZIONNE c.2 })] := by
  have hfe := filter_of_pairwise_key tbl h r.esame
  cases hf : tbl.find? (fun c => c.1 == r.esame) with
  | none =>
    rw [hf] at hfe
    simp [catExpand, hfe, hf]
  | some c =>
    rw [hf] at hfe
    simp [catExpand, hfe, hf]

/-- C6 amended: PROVIDED the deduplicated lookup table has at most one row
per exam code, the category merge is a left (outer-preserving) join: every
input record appears exactly once and in order, with `type_prestazioni` the
`DICT_PRESTAZIONNE` label of the joined category id, or null when the exam
code is unmapped; and category id 3 carries the physiotherapy label. -/
theorem C6_amended_left_join (rows : List Row) (catSheet : List CatRow)
    (h : (catJoinTable catSheet).Pairwise (fun a b => a.1 ≠ b.1)) :
    (add_cat_code rows catSheet).1 = rows.map (fun r =>
       ((catJoinTable catSheet).find? (fun c => c.1 == r.esame)).elim
         { r with idPrestazioni := none, typePrestazioni := none }
         (fun c => { r with idPrestazioni := some c.2, typePrestazioni := DICT_PRESTAZIONNE c.2 })) ∧
    (add_cat_code rows catSheet).1.length = rows.length ∧
    DICT_PRESTAZIONNE 3 = some "Prestazioni di fisioterapia (MAX 500E/ANNO)" := by
  have hmap : ∀ (l : List Row), l.flatMap (catExpand (catJoinTable catSheet))
      = l.map (fun r =>
          ((catJoinTable catSheet).find? (fun c => c.1 == r.esame)).elim
            { r with idPrestazioni := none, typePrestazioni := none }
            (fun c => { r with idPrestazioni := some c.2, typePrestazioni := DICT_PRESTAZIONNE c.2 })) := by
    intro l
    induction l with
    | nil => rfl
    | cons a t iht =>
      rw [List.flatMap_cons, catExpand_of_unique _ h a, iht, List.map_cons]
      rfl
  refine ⟨hmap rows, ?_, rfl⟩
  rw [show (add_cat_code rows catSheet).1 = rows.flatMap (catExpand (catJoinTable catSheet)) from rfl,
     hmap rows, List.length_map]

/-- C6 witness: a unique-key table with category id 3; the record count is
preserved. -/
theorem C6_amended_left_join_witness :
    (catJoinTable [⟨"E1", 3, []⟩]).Pairwise (fun a b => a.1 ≠ b.1) ∧
    (add_cat_code [adultRow] [⟨"E1", 3, []⟩]).1.length = ([adultRow] : List Row).length :=
  ⟨by simp [catJoinTable, dedupKeepFirst],
   (C6_amended_left_join [adultRow] [⟨"E1", 3, []⟩] (by simp [catJoinTable, dedupKeepFirst])).2.1⟩
